import Mathlib

/-!
Shallow embedding of the MetaMask `NetworkController`
(`src/ui/pages/home/home.container.js`, lines 199-1369 of the doc pack).

The controller's observable stores are modelled as fields of a single
`NCState` record; `putState`/`updateState` become functional record updates.
Asynchronous RPC round-trips (`net_version`, `eth_getBlockByNumber`) are
modelled by passing the resolved outcome of the calls as an explicit
argument; the one-shot `NetworkDidChange` staleness listener of
`lookupNetwork` is modelled by a boolean argument saying whether such an
event was published while the RPCs were in flight.  Events published on the
messenger and MetaMetrics callback invocations are returned as explicit
lists, in publication order.  A thrown JS exception is modelled as an
`Option String` carrying the error message (`none` = no throw); state
mutations performed before a throw are retained in the returned state,
exactly as in the source.
-/

/-- The four network statuses (`NetworkStatus` enum from
`shared/constants/network`; the set of values is fixed by the source's
classification code). -/
inductive NetworkStatus where
  | Unknown
  | Available
  | Blocked
  | Unavailable
deriving DecidableEq, Repr

/-- `rpcPrefs` record of a provider / network configuration. -/
structure RpcPrefs where
  blockExplorerUrl : Option String := none
deriving DecidableEq, Repr

/-- `ProviderConfiguration` from the source.  `type` is kept as a plain
string (the source's `ProviderType` is a string union).  The `id` field can
appear because `setActiveNetwork` spreads a stored `NetworkConfiguration`
(which has an `id`) into the provider config. -/
structure ProviderConfiguration where
  type : String
  chainId : Option String := none
  rpcUrl : Option String := none
  ticker : Option String := none
  nickname : Option String := none
  rpcPrefs : Option RpcPrefs := none
  id : Option String := none
deriving DecidableEq, Repr

/-- A user-defined custom network (`NetworkConfiguration` in the source). -/
structure NetworkConfiguration where
  id : String
  rpcUrl : String
  chainId : String
  ticker : String
  nickname : Option String := none
  rpcPrefs : Option RpcPrefs := none
deriving DecidableEq, Repr

/-- The registry of custom networks, a JS object keyed by configuration id.
Modelled as an association list in key-insertion order (JS objects with
non-numeric string keys iterate in insertion order). -/
abbrev NetworkConfigurations := List (String × NetworkConfiguration)

/-- `NetworkDetails`: the `EIPS` map, a JS object from EIP number to
`boolean | undefined`, modelled as an association list in insertion order;
a value `none` models a key present with value `undefined`. -/
structure NetworkDetails where
  EIPS : List (Nat × Option Bool)
deriving DecidableEq, Repr

/-- What `createNetworkClient` was asked to build; stands for the resulting
provider / block-tracker pair. -/
inductive NetworkClientSpec where
  | infura (network : String)
  | custom (rpcUrl : String) (chainId : Option String)
deriving DecidableEq, Repr

/-- The controller state: one field per observable store, plus the private
provider / block-tracker fields and the two swappable proxies (modelled by
their current target; `none` models a `null` proxy). -/
structure NCState where
  providerStore : ProviderConfiguration
  previousProviderStore : ProviderConfiguration
  networkIdStore : Option String
  networkStatusStore : NetworkStatus
  networkDetails : NetworkDetails
  networkConfigurationsStore : NetworkConfigurations
  providerField : Option NetworkClientSpec
  blockTrackerField : Option NetworkClientSpec
  providerProxyTarget : Option NetworkClientSpec
  blockTrackerProxyTarget : Option NetworkClientSpec
deriving DecidableEq, Repr

/-- The four messenger events of `NetworkControllerEventType`. -/
inductive NCEvent where
  | networkWillChange
  | networkDidChange
  | infuraIsBlocked
  | infuraIsUnblocked
deriving DecidableEq, Repr

/-- The JSON-RPC calls the controller issues. -/
inductive RpcCall where
  | netVersion
  | ethGetBlockByNumber
deriving DecidableEq, Repr

/-- A block header as returned by `eth_getBlockByNumber`; the controller
only looks at `baseFeePerGas`. -/
structure Block where
  baseFeePerGas : Option String := none
deriving DecidableEq, Repr

/-- The value of a JS error's `code` property (string or number). -/
inductive JsErrorCode where
  | num (n : Int)
  | str (s : String)
deriving DecidableEq, Repr

/-- A JS error object; `none` fields model absent properties. -/
structure JsErrorObj where
  code : Option JsErrorCode := none
  message : Option String := none
deriving DecidableEq, Repr

/-- A thrown JS value: an object (possibly carrying `code` / `message`
properties) or any non-object value. -/
inductive JsError where
  | obj (e : JsErrorObj)
  | nonObject
deriving DecidableEq, Repr

/-- The joint outcome of `Promise.all([_getNetworkId, _determineEIP1559Compatibility])`
inside `lookupNetwork`: either both calls resolved (giving the `net_version`
string and the latest block), or the combined promise rejected with an
error. -/
inductive LookupOutcome where
  | success (netVersion : String) (latestBlock : Option Block)
  | failure (error : JsError)
deriving DecidableEq, Repr

/-- The payload handed to the `trackMetaMetricsEvent` callback by
`upsertNetworkConfiguration`. -/
structure MetaMetricsEventPayload where
  event : String
  category : String
  referrerUrl : String
  chain_id : String
  symbol : String
  source : String
deriving DecidableEq, Repr

/- ### Constants -/

/-- `NETWORK_TYPES.RPC` from `shared/constants/network`. -/
def NETWORK_TYPES_RPC : String := "rpc"

/-- Modelled from the spec: the "closed, compile-time-known enumeration" of
built-in Infura shortnames (`INFURA_PROVIDER_TYPES`, whose definition lives
in `shared/constants/network`, outside the provided sources). -/
def INFURA_PROVIDER_TYPES : List String := ["mainnet", "goerli", "sepolia"]

/-- `isInfuraProviderType` from the source: membership in
`INFURA_PROVIDER_TYPES`. -/
def isInfuraProviderType (type : String) : Bool :=
  INFURA_PROVIDER_TYPES.contains type

/-- Modelled from the spec: the blocked-response sentinel
(`INFURA_BLOCKED_KEY`, defined outside the provided sources; spec §8
scenario 4 shows the literal `"countryBlocked"`). -/
def INFURA_BLOCKED_KEY : String := "countryBlocked"

/-- `errorCodes.rpc.internal` from the `eth-rpc-errors` package: the
JSON-RPC internal-error code. -/
def rpcInternalErrorCode : Int := -32603

/-- `MetaMetricsEventCategory.Network` (constant defined outside the
provided sources; its value is the category name). -/
def metaMetricsCategoryNetwork : String := "Network"

/-- Per-network constants for `BUILT_IN_INFURA_NETWORKS[type]`. -/
structure BuiltInNetworkInfo where
  chainId : String
  ticker : Option String := none
  blockExplorerUrl : String
deriving DecidableEq, Repr

/-- Modelled from the spec: the "compile-time table" of built-in networks'
chain ids, tickers and explorer URLs (`BUILT_IN_INFURA_NETWORKS`, defined
outside the provided sources).  Defined on exactly the shortnames of
`INFURA_PROVIDER_TYPES`. -/
def BUILT_IN_INFURA_NETWORKS (type : String) : Option BuiltInNetworkInfo :=
  if type = "mainnet" then
    some { chainId := "0x1", blockExplorerUrl := "https://etherscan.io" }
  else if type = "goerli" then
    some { chainId := "0x5", ticker := some "GoerliETH",
           blockExplorerUrl := "https://goerli.etherscan.io" }
  else if type = "sepolia" then
    some { chainId := "0xaa36a7", ticker := some "SepoliaETH",
           blockExplorerUrl := "https://sepolia.etherscan.io" }
  else none

/- ### Small JS-semantics helpers -/

/-- JS truthiness of an optional string property (`undefined` and `''` are
falsy, every other string truthy). -/
def truthyStr : Option String → Bool
  | none => false
  | some s => !(s = "")

/-- `assertNetworkId`: `/^\d+$/u.test(value) && !Number.isNaN(Number(value))`.
A nonempty all-digits string always converts to a non-NaN number, so the
second conjunct is implied by the first. -/
def isDecimalNumericString (s : String) : Bool :=
  !s.data.isEmpty && s.data.all Char.isDigit

/-- JS `String.prototype.toLowerCase` (ASCII case folding suffices for the
comparisons the controller performs). -/
def jsToLowerCase (s : String) : String :=
  String.mk (s.data.map Char.toLower)

/-- JS property read `EIPS[k]` on the modelled `EIPS` object: `none` for an
absent key or a key bound to `undefined`. -/
def jsGetEips (m : List (Nat × Option Bool)) (k : Nat) : Option Bool :=
  match m.find? (fun p => p.1 == k) with
  | some p => p.2
  | none => none

/-- JS object spread update `\x7b...obj, [k]: v\x7d` on the `EIPS` object: an
existing key keeps its position and gets the new value, a new key is
appended. -/
def objInsertNat (m : List (Nat × Option Bool)) (k : Nat) (v : Option Bool) :
    List (Nat × Option Bool) :=
  if m.any (fun p => p.1 == k) then
    m.map (fun p => if p.1 == k then (k, v) else p)
  else m ++ [(k, v)]

/-- JS property read `obj[k]` on the network-configuration registry. -/
def objGet (m : NetworkConfigurations) (k : String) : Option NetworkConfiguration :=
  match m.find? (fun p => p.1 == k) with
  | some p => some p.2
  | none => none

/-- JS object spread update `\x7b...obj, [k]: v\x7d` on the registry. -/
def objInsert (m : NetworkConfigurations) (k : String) (v : NetworkConfiguration) :
    NetworkConfigurations :=
  if m.any (fun p => p.1 == k) then
    m.map (fun p => if p.1 == k then (k, v) else p)
  else m ++ [(k, v)]

/- ### A JSON value model and parser, for `JSON.parse(error.message)` -/

/-- A parsed JSON value (`JSON.parse` result).  Numbers keep their source
lexeme; the controller never inspects numeric values. -/
inductive Json where
  | null
  | bool (b : Bool)
  | num (raw : String)
  | str (s : String)
  | arr (elems : List Json)
  | obj (fields : List (String × Json))

/-- JS strict equality `v === s` between a possibly-absent JSON value and a
string constant. -/
def jsonStrictEqString (v : Option Json) (s : String) : Bool :=
  match v with
  | some (.str t) => t = s
  | _ => false

/-- JS property read on a parsed JSON object; duplicate keys follow
`JSON.parse` semantics (the last occurrence wins). -/
def jsonObjGet (fields : List (String × Json)) (k : String) : Option Json :=
  match fields.reverse.find? (fun p => p.1 == k) with
  | some p => some p.2
  | none => none

/-- `isPlainObject` from `@metamask/utils`: true exactly for plain objects
(among values produced by `JSON.parse`). -/
def isPlainObject : Option Json → Bool
  | some (.obj _) => true
  | _ => false

def jsonLBrace : Char := Char.ofNat 123

def jsonRBrace : Char := Char.ofNat 125

def isJsonWs (c : Char) : Bool :=
  c = ' ' || c = '\t' || c = '\n' || c = '\r'

def skipJsonWs (cs : List Char) : List Char :=
  cs.dropWhile isJsonWs

def isJsonNumChar (c : Char) : Bool :=
  c.isDigit || c = '-' || c = '+' || c = '.' || c = 'e' || c = 'E'

/-- Lex a JSON number lexeme (loosely: the shape of the lexeme is never
inspected by the controller). -/
def lexJsonNumber (cs : List Char) : Option (String × List Char) :=
  match cs with
  | c :: _ =>
    if c.isDigit || c = '-' then
      let lexeme := cs.takeWhile isJsonNumChar
      some (String.mk lexeme, cs.drop lexeme.length)
    else none
  | [] => none

def hexCharVal (c : Char) : Option Nat :=
  if c.isDigit then some (c.toNat - '0'.toNat)
  else if 'a' ≤ c ∧ c ≤ 'f' then some (c.toNat - 'a'.toNat + 10)
  else if 'A' ≤ c ∧ c ≤ 'F' then some (c.toNat - 'A'.toNat + 10)
  else none

/-- Parse the remainder of a JSON string literal (after the opening quote),
returning the decoded string and the rest of the input. -/
def parseJsonStringRest (acc : List Char) : List Char → Option (String × List Char)
  | [] => none
  | '"' :: rest => some (String.mk acc.reverse, rest)
  | '\\' :: esc :: rest =>
    match esc with
    | '"' => parseJsonStringRest ('"' :: acc) rest
    | '\\' => parseJsonStringRest ('\\' :: acc) rest
    | '/' => parseJsonStringRest ('/' :: acc) rest
    | 'b' => parseJsonStringRest (Char.ofNat 8 :: acc) rest
    | 'f' => parseJsonStringRest (Char.ofNat 12 :: acc) rest
    | 'n' => parseJsonStringRest ('\n' :: acc) rest
    | 'r' => parseJsonStringRest ('\r' :: acc) rest
    | 't' => parseJsonStringRest ('\t' :: acc) rest
    | 'u' =>
      match rest with
      | a :: b :: c :: d :: rest' =>
        match hexCharVal a, hexCharVal b, hexCharVal c, hexCharVal d with
        | some va, some vb, some vc, some vd =>
          parseJsonStringRest
            (Char.ofNat (((va * 16 + vb) * 16 + vc) * 16 + vd) :: acc) rest'
        | _, _, _, _ => none
      | _ => none
    | _ => none
  | c :: rest => parseJsonStringRest (c :: acc) rest

mutual

/-- Parse one JSON value from the input (fuel-bounded recursion). -/
def parseJsonValue : Nat → List Char → Option (Json × List Char)
  | 0, _ => none
  | fuel + 1, cs =>
    match skipJsonWs cs with
    | 'n' :: 'u' :: 'l' :: 'l' :: rest => some (.null, rest)
    | 't' :: 'r' :: 'u' :: 'e' :: rest => some (.bool true, rest)
    | 'f' :: 'a' :: 'l' :: 's' :: 'e' :: rest => some (.bool false, rest)
    | '"' :: rest =>
      match parseJsonStringRest [] rest with
      | some (s, rest') => some (.str s, rest')
      | none => none
    | '[' :: rest =>
      (match skipJsonWs rest with
       | ']' :: rest' => some (.arr [], rest')
       | _ =>
         match parseJsonElems fuel rest with
         | some (elems, rest') => some (.arr elems, rest')
         | none => none)
    | cs' =>
      if cs'.take 1 = [jsonLBrace] then
        let rest := cs'.drop 1
        (match skipJsonWs rest with
         | c :: rest' =>
           if c = jsonRBrace then some (.obj [], rest')
           else
             match parseJsonMembers fuel rest with
             | some (fields, rest') => some (.obj fields, rest')
             | none => none
         | [] => none)
      else
        match lexJsonNumber cs' with
        | some (raw, rest) => some (.num raw, rest)
        | none => none

/-- Parse one or more comma-separated array elements, consuming the closing
bracket. -/
def parseJsonElems : Nat → List Char → Option (List Json × List Char)
  | 0, _ => none
  | fuel + 1, cs =>
    match parseJsonValue fuel cs with
    | some (v, rest) =>
      (match skipJsonWs rest with
       | ',' :: rest' =>
         match parseJsonElems fuel rest' with
         | some (vs, rest'') => some (v :: vs, rest'')
         | none => none
       | ']' :: rest' => some ([v], rest')
       | _ => none)
    | none => none

/-- Parse one or more comma-separated object members, consuming the closing
brace. -/
def parseJsonMembers : Nat → List Char → Option (List (String × Json) × List Char)
  | 0, _ => none
  | fuel + 1, cs =>
    match skipJsonWs cs with
    | '"' :: rest =>
      (match parseJsonStringRest [] rest with
       | some (k, rest') =>
         (match skipJsonWs rest' with
          | ':' :: rest'' =>
            (match parseJsonValue fuel rest'' with
             | some (v, rest3) =>
               (match skipJsonWs rest3 with
                | ',' :: rest4 =>
                  (match parseJsonMembers fuel rest4 with
                   | some (fields, rest5) => some ((k, v) :: fields, rest5)
                   | none => none)
                | c :: rest4 =>
                  if c = jsonRBrace then some ([(k, v)], rest4) else none
                | [] => none)
             | none => none)
          | _ => none)
       | none => none)
    | _ => none

end

/-- `JSON.parse`: parse a complete JSON document, requiring the whole input
to be consumed (up to trailing whitespace); `none` models a thrown
`SyntaxError`. -/
def jsonParse (s : String) : Option Json :=
  match parseJsonValue (s.data.length + 1) s.data with
  | some (v, rest) => if skipJsonWs rest = [] then some v else none
  | none => none

/- ### Default store values -/

/-- `buildDefaultNetworkIdState`. -/
def buildDefaultNetworkIdState : Option String := none

/-- `buildDefaultNetworkStatusState`. -/
def buildDefaultNetworkStatusState : NetworkStatus := NetworkStatus.Unknown

/-- `buildDefaultNetworkDetailsState`: `EIPS: (1559: undefined)`. -/
def buildDefaultNetworkDetailsState : NetworkDetails :=
  { EIPS := [(1559, none)] }

/- ### Validation helpers used by `upsertNetworkConfiguration` -/

def isHexDigitChar (c : Char) : Bool :=
  c.isDigit || ('a' ≤ c && c ≤ 'f') || ('A' ≤ c && c ≤ 'F')

/-- Modelled from the spec: `chainId` "must be a prefixed hex string"
(`isPrefixedFormattedHexString` from `shared/modules/network.utils`,
outside the provided sources; mirrors the regex
`^0x[1-9a-f]+[0-9a-f]*$` with the ignore-case flag). -/
def isPrefixedFormattedHexString (s : String) : Bool :=
  match s.data with
  | '0' :: x :: first :: rest =>
    (x = 'x' || x = 'X') && isHexDigitChar first && !(first = '0') &&
      rest.all isHexDigitChar
  | _ => false

def hexDigitValue (c : Char) : Nat :=
  if c.isDigit then c.toNat - '0'.toNat
  else if 'a' ≤ c ∧ c ≤ 'f' then c.toNat - 'a'.toNat + 10
  else if 'A' ≤ c ∧ c ≤ 'F' then c.toNat - 'A'.toNat + 10
  else 0

/-- JS `parseInt(s, 16)`: skip an optional `0x`/`0X` prefix and read the
longest leading run of hex digits. -/
def parseIntHex (s : String) : Nat :=
  let cs :=
    match s.data with
    | '0' :: 'x' :: rest => rest
    | '0' :: 'X' :: rest => rest
    | cs => cs
  (cs.takeWhile isHexDigitChar).foldl (fun acc c => acc * 16 + hexDigitValue c) 0

/-- Modelled from the spec: the chain id must be "within safe numeric range"
(`isSafeChainId` from `shared/modules/network.utils`, outside the provided
sources: positive and at most the maximum safe chain id). -/
def isSafeChainId (n : Nat) : Bool :=
  0 < n && n ≤ 4503599627370476

/-- Finds the first `"://"` separator of a URL candidate. -/
def findSchemeSplit : List Char → Option (List Char × List Char)
  | [] => none
  | ':' :: '/' :: '/' :: rest => some ([], rest)
  | c :: rest =>
    match findSchemeSplit rest with
    | some p => some (c :: p.1, p.2)
    | none => none

/-- Modelled from the spec: `rpcUrl` "must parse as a URL" (the WHATWG `URL`
constructor used by `new URL(rpcUrl)`); modelled as an alphabetic nonempty
scheme, `"://"`, and a nonempty remainder. -/
def isValidUrl (s : String) : Bool :=
  match findSchemeSplit s.data with
  | some (scheme, rest) =>
    !scheme.isEmpty && scheme.all Char.isAlpha && !rest.isEmpty
  | none => false

/- ### Error classification inside `lookupNetwork`'s catch block -/

/-- `isErrorWithCode`: the thrown value is an object with a `code`
property. -/
def isErrorWithCode : JsError → Bool
  | .obj e => e.code.isSome
  | .nonObject => false

/-- `isErrorWithMessage` (from `shared/modules/error`, outside the provided
sources): the thrown value is an object with a `message` property. -/
def isErrorWithMessage : JsError → Bool
  | .obj e => e.message.isSome
  | .nonObject => false

/-- The `message` property of a classified error (only read after
`isErrorWithMessage` holds). -/
def errorMessage : JsError → String
  | .obj e => e.message.getD ""
  | .nonObject => ""

/-- The `code` property of a thrown value, if any. -/
def errorCode : JsError → Option JsErrorCode
  | .obj e => e.code
  | .nonObject => none

/-- `isPlainObject(responseBody) && responseBody.error === INFURA_BLOCKED_KEY`. -/
def isBlockedBody (responseBody : Option Json) : Bool :=
  isPlainObject responseBody &&
    (match responseBody with
     | some (.obj fields) => jsonStrictEqString (jsonObjGet fields "error") INFURA_BLOCKED_KEY
     | _ => false)

/-- The catch block of `lookupNetwork`: classify a thrown error into a
`NetworkStatus`. -/
def classifyRpcError (error : JsError) : NetworkStatus :=
  if isErrorWithCode error && isErrorWithMessage error then
    let responseBody := jsonParse (errorMessage error)
    if isBlockedBody responseBody then NetworkStatus.Blocked
    else if errorCode error = some (.num rpcInternalErrorCode) then NetworkStatus.Unknown
    else NetworkStatus.Unavailable
  else
    -- `log.warn('NetworkController - could not determine network status', error)`
    NetworkStatus.Unknown

/-- The error thrown by `assertNetworkId` when `net_version` did not return
a decimal numeric string: a Node `AssertionError` (`code` is the string
`ERR_ASSERTION`, `message` is the assertion text). -/
def assertNetworkIdFailure : JsError :=
  .obj { code := some (.str "ERR_ASSERTION"), message := some "value is not a number" }

/-- `_determineEIP1559Compatibility`: `latestBlock?.baseFeePerGas !== undefined`. -/
def latestBlockSupportsEIP1559 : Option Block → Bool
  | some blk => blk.baseFeePerGas.isSome
  | none => false

/-- The try/catch of `lookupNetwork` condensed over a resolved outcome:
returns the local variables `(networkStatus, networkId, supportsEIP1559)`
as they stand after the try/catch. -/
def classifyLookupOutcome (outcome : LookupOutcome) :
    NetworkStatus × Option String × Bool :=
  match outcome with
  | .success possibleNetworkId latestBlock =>
    if isDecimalNumericString possibleNetworkId then
      (NetworkStatus.Available, some possibleNetworkId,
        latestBlockSupportsEIP1559 latestBlock)
    else
      -- `assertNetworkId` throws; the catch block classifies its error
      (classifyRpcError assertNetworkIdFailure, none, false)
  | .failure error => (classifyRpcError error, none, false)

/- ### lookupNetwork -/

/-- Result of a `lookupNetwork` run: final state, messenger events published
(in order), and JSON-RPC calls issued. -/
structure LookupResult where
  state : NCState
  published : List NCEvent
  rpcCalls : List RpcCall
deriving DecidableEq, Repr

/-- `lookupNetwork`.  `outcome` is the joint result of the two awaited RPC
calls; `networkDidChangeDuringRpc` says whether a `NetworkDidChange` event
was published between the subscription of the one-shot listener and the
resolution of the RPCs (in which case the listener has set the local
`networkChanged` flag). -/
def lookupNetwork (st : NCState) (outcome : LookupOutcome)
    (networkDidChangeDuringRpc : Bool) : LookupResult :=
  let chainId := st.providerStore.chainId
  let type := st.providerStore.type
  if st.providerProxyTarget = none then
    -- `log.warn(... aborted due to missing provider)`; return
    { state := st, published := [], rpcCalls := [] }
  else if truthyStr chainId = false then
    -- `log.warn(... aborted due to missing chainId)`; reset derived state
    { state :=
        { st with
          networkIdStore := buildDefaultNetworkIdState,
          networkStatusStore := buildDefaultNetworkStatusState,
          networkDetails := buildDefaultNetworkDetailsState },
      published := [], rpcCalls := [] }
  else
    let isInfura := isInfuraProviderType type
    -- subscribe the one-shot `NetworkDidChange` listener, then await
    -- `Promise.all([_getNetworkId, _determineEIP1559Compatibility])`
    let networkChanged := networkDidChangeDuringRpc
    let cls := classifyLookupOutcome outcome
    let networkStatus := cls.1
    let networkId := cls.2.1
    let supportsEIP1559 := cls.2.2
    if networkChanged then
      -- a fresh lookupNetwork is already running or queued; drop everything
      { state := st, published := [],
        rpcCalls := [RpcCall.netVersion, RpcCall.ethGetBlockByNumber] }
    else
      let st1 := { st with networkStatusStore := networkStatus }
      let st2 :=
        if networkStatus = NetworkStatus.Available then
          { st1 with
            networkIdStore := networkId,
            networkDetails :=
              { EIPS := objInsertNat st1.networkDetails.EIPS 1559 (some supportsEIP1559) } }
        else
          { st1 with
            networkIdStore := buildDefaultNetworkIdState,
            networkDetails := buildDefaultNetworkDetailsState }
      let published :=
        if isInfura then
          if networkStatus = NetworkStatus.Available then [NCEvent.infuraIsUnblocked]
          else if networkStatus = NetworkStatus.Blocked then [NCEvent.infuraIsBlocked]
          else []
        else
          [NCEvent.infuraIsUnblocked]
      { state := st2, published := published,
        rpcCalls := [RpcCall.netVersion, RpcCall.ethGetBlockByNumber] }

/- ### getEIP1559Compatibility -/

/-- Result of `getEIP1559Compatibility`: final state, returned value or
propagated rejection, and RPC calls issued. -/
structure Eip1559Result where
  state : NCState
  value : Except JsError Bool
  rpcCalls : List RpcCall
deriving Repr

/-- `getEIP1559Compatibility`.  `fetchResult` is the resolution of
`_getLatestBlock` (only consulted when the method actually fetches). -/
def getEIP1559Compatibility (st : NCState)
    (fetchResult : Except JsError (Option Block)) : Eip1559Result :=
  match jsGetEips st.networkDetails.EIPS 1559 with
  | some b => { state := st, value := .ok b, rpcCalls := [] }
  | none =>
    if st.providerProxyTarget = none then
      -- documented wart: return false instead of throwing
      { state := st, value := .ok false, rpcCalls := [] }
    else
      match fetchResult with
      | .error e =>
        { state := st, value := .error e, rpcCalls := [RpcCall.ethGetBlockByNumber] }
      | .ok latestBlock =>
        let supportsEIP1559 := latestBlockSupportsEIP1559 latestBlock
        { state :=
            { st with
              networkDetails :=
                { EIPS := objInsertNat st.networkDetails.EIPS 1559 (some supportsEIP1559) } },
          value := .ok supportsEIP1559,
          rpcCalls := [RpcCall.ethGetBlockByNumber] }

/- ### Provider installation and network switching -/

/-- `_setProviderAndBlockTracker`: retarget (or create) the two proxies and
store the new provider and block tracker. -/
def setProviderAndBlockTracker (st : NCState) (client : NetworkClientSpec) : NCState :=
  { st with
    providerProxyTarget := some client,
    blockTrackerProxyTarget := some client,
    providerField := some client,
    blockTrackerField := some client }

/-- `_configureProvider`: build and install a network client, or throw
(`none`) when the type is neither a built-in Infura type nor `"rpc"` with a
truthy `rpcUrl`. -/
def configureProvider (st : NCState) (pc : ProviderConfiguration) : Option NCState :=
  if isInfuraProviderType pc.type then
    some (setProviderAndBlockTracker st (.infura pc.type))
  else if pc.type = NETWORK_TYPES_RPC ∧ truthyStr pc.rpcUrl then
    some (setProviderAndBlockTracker st (.custom (pc.rpcUrl.getD "") pc.chainId))
  else
    none

/-- Result of a synchronous switch-flavored operation: final state, events
published (in order), and the thrown error message, if any. -/
structure SwitchResult where
  state : NCState
  published : List NCEvent
  thrown : Option String
deriving DecidableEq, Repr

/-- `_switchNetwork`: publish `NetworkWillChange`, reset the derived stores,
configure the provider (which may throw), then publish `NetworkDidChange`.
The final fire-and-forget `lookupNetwork()` call is an asynchronous
follow-up step and is modelled as a separate transition (`lookupNetwork`
above), not as part of this synchronous sequence. -/
def switchNetwork (st : NCState) (pc : ProviderConfiguration) : SwitchResult :=
  let st1 :=
    { st with
      networkIdStore := buildDefaultNetworkIdState,
      networkStatusStore := buildDefaultNetworkStatusState,
      networkDetails := buildDefaultNetworkDetailsState }
  match configureProvider st1 pc with
  | some st2 =>
    { state := st2,
      published := [NCEvent.networkWillChange, NCEvent.networkDidChange],
      thrown := none }
  | none =>
    { state := st1,
      published := [NCEvent.networkWillChange],
      thrown := some "NetworkController - _configureProvider - unknown type" }

/-- `_setProviderConfig`: snapshot the current provider config into the
previous-provider store, store the new config, then switch. -/
def setProviderConfig (st : NCState) (providerConfig : ProviderConfiguration) : SwitchResult :=
  let st1 :=
    { st with
      previousProviderStore := st.providerStore,
      providerStore := providerConfig }
  switchNetwork st1 providerConfig

/-- `rollbackToPreviousProvider`: write the previous provider config to the
provider store (without snapshotting the current one) and switch. -/
def rollbackToPreviousProvider (st : NCState) : SwitchResult :=
  let config := st.previousProviderStore
  let st1 := { st with providerStore := config }
  switchNetwork st1 config

/- ### setActiveNetwork / setProviderType -/

/-- Result of `setActiveNetwork`: final state, returned `rpcUrl` (absent
when the call threw), events, and thrown error. -/
structure SetActiveResult where
  state : NCState
  returnedRpcUrl : Option String
  published : List NCEvent
  thrown : Option String
deriving DecidableEq, Repr

/-- `setActiveNetwork`. -/
def setActiveNetwork (st : NCState) (networkConfigurationId : String) : SetActiveResult :=
  match objGet st.networkConfigurationsStore networkConfigurationId with
  | none =>
    { state := st, returnedRpcUrl := none, published := [],
      thrown := some "networkConfigurationId does not match a configured networkConfiguration" }
  | some targetNetwork =>
    -- `\x7b type: NETWORK_TYPES.RPC, ...targetNetwork \x7d`
    let r := setProviderConfig st
      { type := NETWORK_TYPES_RPC,
        chainId := some targetNetwork.chainId,
        rpcUrl := some targetNetwork.rpcUrl,
        ticker := some targetNetwork.ticker,
        nickname := targetNetwork.nickname,
        rpcPrefs := targetNetwork.rpcPrefs,
        id := some targetNetwork.id }
    { state := r.state,
      returnedRpcUrl := if r.thrown = none then some targetNetwork.rpcUrl else none,
      published := r.published,
      thrown := r.thrown }

/-- `setProviderType`.  The `assert.ok(isInfuraProviderType type)` guard and
the subsequent `BUILT_IN_INFURA_NETWORKS[type]` lookup are combined into a
single table lookup: the table is defined exactly on the built-in
shortnames. -/
def setProviderType (st : NCState) (type : String) : SwitchResult :=
  if type = NETWORK_TYPES_RPC then
    { state := st, published := [],
      thrown := some "NetworkController - cannot call setProviderType with type rpc. Use setActiveNetwork" }
  else
    match BUILT_IN_INFURA_NETWORKS type with
    | none =>
      { state := st, published := [],
        thrown := some "Unknown Infura provider type." }
    | some network =>
      setProviderConfig st
        { type := type,
          rpcUrl := some "",
          chainId := some network.chainId,
          ticker := some (network.ticker.getD "ETH"),
          nickname := some "",
          rpcPrefs := some { blockExplorerUrl := some network.blockExplorerUrl } }

/- ### upsertNetworkConfiguration -/

/-- The positional pieces of the network configuration passed to
`upsertNetworkConfiguration` (everything but the `id`). -/
structure UpsertArgs where
  rpcUrl : String
  chainId : String
  ticker : String
  nickname : Option String := none
  rpcPrefs : Option RpcPrefs := none
deriving DecidableEq, Repr

/-- The `additionalArgs` of `upsertNetworkConfiguration`. -/
structure UpsertOpts where
  setActive : Bool := false
  referrer : String
  source : String
deriving DecidableEq, Repr

/-- Result of `upsertNetworkConfiguration`: final state, returned id
(absent when the call threw), MetaMetrics payloads sent, messenger events
published (by a `setActive` switch), and thrown error. -/
structure UpsertResult where
  state : NCState
  returnedId : Option String
  tracked : List MetaMetricsEventPayload
  published : List NCEvent
  thrown : Option String
deriving DecidableEq, Repr

/-- `Object.values(networkConfigurations).find(nc => nc.rpcUrl?.toLowerCase()
=== rpcUrl?.toLowerCase())`. -/
def findMatchingConfig (m : NetworkConfigurations) (rpcUrl : String) :
    Option NetworkConfiguration :=
  (m.map (fun p => p.2)).find?
    (fun networkConfiguration =>
      jsToLowerCase networkConfiguration.rpcUrl == jsToLowerCase rpcUrl)

/-- `upsertNetworkConfiguration`.  `freshId` is the `uuid()` value drawn in
this call (used only when no existing configuration matches the URL). -/
def upsertNetworkConfiguration (st : NCState) (args : UpsertArgs)
    (opts : UpsertOpts) (freshId : String) : UpsertResult :=
  if !isPrefixedFormattedHexString args.chainId then
    { state := st, returnedId := none, tracked := [], published := [],
      thrown := some "Invalid chain ID: invalid hex string." }
  else if !isSafeChainId (parseIntHex args.chainId) then
    { state := st, returnedId := none, tracked := [], published := [],
      thrown := some "Invalid chain ID: numerical value greater than max safe value." }
  else if args.rpcUrl = "" then
    { state := st, returnedId := none, tracked := [], published := [],
      thrown := some "An rpcUrl is required to add or update network configuration" }
  else if opts.referrer = "" ∨ opts.source = "" then
    { state := st, returnedId := none, tracked := [], published := [],
      thrown := some "referrer and source are required arguments for adding or updating a network configuration" }
  else if !isValidUrl args.rpcUrl then
    { state := st, returnedId := none, tracked := [], published := [],
      thrown := some "rpcUrl must be a valid URL" }
  else if args.ticker = "" then
    { state := st, returnedId := none, tracked := [], published := [],
      thrown := some "A ticker is required to add or update networkConfiguration" }
  else
    let networkConfigurations := st.networkConfigurationsStore
    let oldNetworkConfigurationId :=
      (findMatchingConfig networkConfigurations args.rpcUrl).map (fun nc => nc.id)
    let newNetworkConfigurationId := oldNetworkConfigurationId.getD freshId
    let entry : NetworkConfiguration :=
      { id := newNetworkConfigurationId,
        rpcUrl := args.rpcUrl,
        chainId := args.chainId,
        ticker := args.ticker,
        nickname := args.nickname,
        rpcPrefs := args.rpcPrefs }
    let st1 :=
      { st with
        networkConfigurationsStore :=
          objInsert networkConfigurations newNetworkConfigurationId entry }
    let tracked :=
      if oldNetworkConfigurationId = none then
        [{ event := "Custom Network Added",
           category := metaMetricsCategoryNetwork,
           referrerUrl := opts.referrer,
           chain_id := args.chainId,
           symbol := args.ticker,
           source := opts.source }]
      else []
    if opts.setActive then
      let r := setActiveNetwork st1 newNetworkConfigurationId
      { state := r.state,
        returnedId := if r.thrown = none then some newNetworkConfigurationId else none,
        tracked := tracked,
        published := r.published,
        thrown := r.thrown }
    else
      { state := st1, returnedId := some newNetworkConfigurationId,
        tracked := tracked, published := [], thrown := none }

/-- A concrete state whose provider proxy is `null` while the derived
stores hold non-default values (used to refute claim C4). -/
def nullProviderState : NCState :=
  { providerStore := { type := "rpc", chainId := some "0x1", rpcUrl := some "https://x/" },
    previousProviderStore := { type := "mainnet", chainId := some "0x1" },
    networkIdStore := some "1",
    networkStatusStore := NetworkStatus.Available,
    networkDetails := { EIPS := [(1559, some true)] },
    networkConfigurationsStore := [],
    providerField := none,
    blockTrackerField := none,
    providerProxyTarget := none,
    blockTrackerProxyTarget := none }

/-- A concrete state with a live provider proxy but an absent chainId (for
the C4 witness). -/
def missingChainIdState : NCState :=
  { providerStore := { type := "rpc", chainId := none, rpcUrl := some "https://x/" },
    previousProviderStore := { type := "mainnet", chainId := some "0x1" },
    networkIdStore := some "5",
    networkStatusStore := NetworkStatus.Available,
    networkDetails := { EIPS := [(1559, some false)] },
    networkConfigurationsStore := [],
    providerField := some (.custom "https://x/" none),
    blockTrackerField := some (.custom "https://x/" none),
    providerProxyTarget := some (.custom "https://x/" none),
    blockTrackerProxyTarget := some (.custom "https://x/" none) }

/-- A concrete state with a live provider proxy and a configured mainnet
provider (used by several witnesses). -/
def liveMainnetState : NCState :=
  { providerStore := { type := "mainnet", chainId := some "0x1", ticker := some "ETH" },
    previousProviderStore := { type := "mainnet", chainId := some "0x1", ticker := some "ETH" },
    networkIdStore := none,
    networkStatusStore := NetworkStatus.Unknown,
    networkDetails := buildDefaultNetworkDetailsState,
    networkConfigurationsStore := [],
    providerField := some (.infura "mainnet"),
    blockTrackerField := some (.infura "mainnet"),
    providerProxyTarget := some (.infura "mainnet"),
    blockTrackerProxyTarget := some (.infura "mainnet") }

/-- The error that reaches the catch block of `lookupNetwork`, if any: the
rejection of the awaited RPCs, or the `assertNetworkId` failure thrown on a
non-decimal `net_version` result. -/
def lookupRaisedError : LookupOutcome → Option JsError
  | .success netVersion _ =>
    if isDecimalNumericString netVersion then none else some assertNetworkIdFailure
  | .failure error => some error

/-- The validation preconditions of `upsertNetworkConfiguration` (the
conjunction of all the guards at the top of the method). -/
def upsertValidationOk (args : UpsertArgs) (opts : UpsertOpts) : Prop :=
  isPrefixedFormattedHexString args.chainId = true ∧
  isSafeChainId (parseIntHex args.chainId) = true ∧
  args.rpcUrl ≠ "" ∧ opts.referrer ≠ "" ∧ opts.source ≠ "" ∧
  isValidUrl args.rpcUrl = true ∧ args.ticker ≠ ""

instance (args : UpsertArgs) (opts : UpsertOpts) :
    Decidable (upsertValidationOk args opts) := by
  unfold upsertValidationOk; infer_instance

/-- Whether a registry pair's configuration matches the given `rpcUrl`
case-insensitively (the predicate of `findMatchingConfig`, lifted to
key-value pairs). -/
def matchesUrl (rpcUrl : String) (p : String × NetworkConfiguration) : Bool :=
  jsToLowerCase p.2.rpcUrl == jsToLowerCase rpcUrl

/-- Number of registry entries whose `rpcUrl` matches the given URL
case-insensitively. -/
def countMatches (m : NetworkConfigurations) (rpcUrl : String) : Nat :=
  (m.filter (matchesUrl rpcUrl)).length

/-- The data-model invariants of the registry (spec §3): it is a mapping
from id to configuration, so keys are unique and each stored configuration
carries its own key as `id`. -/
def registryWellFormed (m : NetworkConfigurations) : Prop :=
  (∀ p ∈ m, p.2.id = p.1) ∧ (m.map (fun p => p.1)).Nodup

instance (m : NetworkConfigurations) : Decidable (registryWellFormed m) := by
  unfold registryWellFormed; infer_instance

/-- Replace the value stored at key `k` (the key-present case of
`objInsert`). -/
def replaceKey (m : NetworkConfigurations) (k : String) (v : NetworkConfiguration) :
    NetworkConfigurations :=
  m.map (fun p => if p.1 == k then (k, v) else p)

/-- The MetaMetrics payload sent by `upsertNetworkConfiguration` when a
genuinely new network is added. -/
def customNetworkAddedPayload (args : UpsertArgs) (opts : UpsertOpts) :
    MetaMetricsEventPayload :=
  { event := "Custom Network Added",
    category := metaMetricsCategoryNetwork,
    referrerUrl := opts.referrer,
    chain_id := args.chainId,
    symbol := args.ticker,
    source := opts.source }

/- ### Helper lemmas -/

theorem builtin_table_none_iff (type : String) :
    BUILT_IN_INFURA_NETWORKS type = none ↔ isInfuraProviderType type = false := by
  unfold BUILT_IN_INFURA_NETWORKS isInfuraProviderType INFURA_PROVIDER_TYPES
  split_ifs with h1 h2 h3 <;> simp_all

theorem switchNetwork_preserves_stores (st : NCState) (pc : ProviderConfiguration) :
    (switchNetwork st pc).state.providerStore = st.providerStore ∧
    (switchNetwork st pc).state.previousProviderStore = st.previousProviderStore ∧
    (switchNetwork st pc).state.networkConfigurationsStore = st.networkConfigurationsStore := by
  unfold switchNetwork configureProvider setProviderAndBlockTracker
  split_ifs <;> exact ⟨rfl, rfl, rfl⟩

theorem setActiveNetwork_preserves_registry (st : NCState) (ncid : String) :
    (setActiveNetwork st ncid).state.networkConfigurationsStore
      = st.networkConfigurationsStore := by
  unfold setActiveNetwork
  split
  · rfl
  · simp only [setProviderConfig]
    exact (switchNetwork_preserves_stores _ _).2.2

/-- Claim C8: for every provider configuration `pc` and every controller
state, performing a switch to `pc` (`_setProviderConfig`) followed by
`rollbackToPreviousProvider` leaves `providerStore` equal to the value it
held before the switch. -/
theorem setProviderConfig_then_rollback_restores_providerStore
    (st : NCState) (pc : ProviderConfiguration) :
    (rollbackToPreviousProvider (setProviderConfig st pc).state).state.providerStore
      = st.providerStore := by
  unfold rollbackToPreviousProvider
  have hprev : (setProviderConfig st pc).state.previousProviderStore = st.providerStore := by
    unfold setProviderConfig
    exact (switchNetwork_preserves_stores _ _).2.1
  have h := switchNetwork_preserves_stores
    { (setProviderConfig st pc).state with
      providerStore := (setProviderConfig st pc).state.previousProviderStore }
    (setProviderConfig st pc).state.previousProviderStore
  rw [h.1]
  exact hprev

/-- Claim C10: for every provider configuration whose type is `"rpc"` but
whose `rpcUrl` is absent or empty (or whose type is neither a built-in
Infura type nor `"rpc"`), `_switchNetwork` publishes `NetworkWillChange`
and resets `networkId`, `networkStatus` and `networkDetails` to their
defaults, then throws from `_configureProvider`: `NetworkDidChange` is not
published and the previously installed provider, block tracker and proxy
targets are unchanged — the switch sequence is not atomic on this error
path. -/
theorem switchNetwork_throws_nonatomically (st : NCState) (pc : ProviderConfiguration)
    (h : (pc.type = NETWORK_TYPES_RPC ∧ truthyStr pc.rpcUrl = false) ∨
         (isInfuraProviderType pc.type = false ∧ pc.type ≠ NETWORK_TYPES_RPC)) :
    switchNetwork st pc =
      { state :=
          { st with
            networkIdStore := buildDefaultNetworkIdState,
            networkStatusStore := buildDefaultNetworkStatusState,
            networkDetails := buildDefaultNetworkDetailsState },
        published := [NCEvent.networkWillChange],
        thrown := some "NetworkController - _configureProvider - unknown type" } := by
  have hrpc : isInfuraProviderType NETWORK_TYPES_RPC = false := by decide
  unfold switchNetwork configureProvider
  rcases h with ⟨h1, h2⟩ | ⟨h1, h2⟩ <;> simp [h1, h2, hrpc]

/-- Claim C4, counterexample: with a null provider proxy and a configured
chainId, `lookupNetwork` returns early without resetting anything — the
network status keeps its non-default value `Available`, contradicting the
claim that the call "resets networkId, networkStatus, and networkDetails to
their default values" in this case. -/
theorem lookupNetwork_null_provider_no_reset_cex :
    nullProviderState.providerProxyTarget = none ∧
    truthyStr nullProviderState.providerStore.chainId = true ∧
    (lookupNetwork nullProviderState (.success "1" none) false).state.networkStatusStore
      = NetworkStatus.Available ∧
    buildDefaultNetworkStatusState = NetworkStatus.Unknown ∧
    (lookupNetwork nullProviderState (.success "1" none) false).state.networkIdStore
      = some "1" ∧
    buildDefaultNetworkIdState = none := by
  refine ⟨rfl, rfl, ?_, rfl, ?_, rfl⟩ <;> rfl

/-- Claim C4, amended: if the provider proxy is null, `lookupNetwork`
returns without issuing any RPC, publishing any event, or writing any
store; if the provider proxy is present but the configured chainId is
absent, the call resets `networkId`, `networkStatus` and `networkDetails`
to their default values and returns without issuing any RPC and without
publishing any event. -/
theorem lookupNetwork_missing_provider_or_chainId (st : NCState)
    (outcome : LookupOutcome) (networkDidChangeDuringRpc : Bool) :
    (st.providerProxyTarget = none →
      lookupNetwork st outcome networkDidChangeDuringRpc =
        { state := st, published := [], rpcCalls := [] }) ∧
    (st.providerProxyTarget ≠ none →
      truthyStr st.providerStore.chainId = false →
      lookupNetwork st outcome networkDidChangeDuringRpc =
        { state :=
            { st with
              networkIdStore := buildDefaultNetworkIdState,
              networkStatusStore := buildDefaultNetworkStatusState,
              networkDetails := buildDefaultNetworkDetailsState },
          published := [], rpcCalls := [] }) := by
  constructor
  · intro h
    simp [lookupNetwork, h]
  · intro h1 h2
    obtain ⟨x, hx⟩ := Option.ne_none_iff_exists'.mp h1
    simp [lookupNetwork, hx, h2]

/-- Witness for the amended claim C4, at two concrete states. -/
theorem lookupNetwork_missing_provider_or_chainId_witness :
    (lookupNetwork nullProviderState (.failure .nonObject) true =
      { state := nullProviderState, published := [], rpcCalls := [] }) ∧
    (lookupNetwork missingChainIdState (.failure .nonObject) true =
      { state :=
          { missingChainIdState with
            networkIdStore := buildDefaultNetworkIdState,
            networkStatusStore := buildDefaultNetworkStatusState,
            networkDetails := buildDefaultNetworkDetailsState },
        published := [], rpcCalls := [] }) :=
  ⟨(lookupNetwork_missing_provider_or_chainId nullProviderState (.failure .nonObject) true).1
      (by decide),
   (lookupNetwork_missing_provider_or_chainId missingChainIdState (.failure .nonObject) true).2
      (by decide) (by decide)⟩

/-- Claim C2: if a `NetworkDidChange` event is published while the two RPC
calls of a `lookupNetwork` run are in flight (so the one-shot listener set
the `networkChanged` flag), the run writes nothing to any store — in
particular not to `networkStatus`, `networkId` or `networkDetails` — and
publishes no `InfuraIsBlocked` or `InfuraIsUnblocked` event. -/
theorem lookupNetwork_stale_run_is_silent (st : NCState) (outcome : LookupOutcome)
    (h1 : st.providerProxyTarget ≠ none)
    (h2 : truthyStr st.providerStore.chainId = true) :
    lookupNetwork st outcome true =
      { state := st, published := [],
        rpcCalls := [RpcCall.netVersion, RpcCall.ethGetBlockByNumber] } := by
  obtain ⟨x, hx⟩ := Option.ne_none_iff_exists'.mp h1
  simp [lookupNetwork, hx, h2]

/-- Witness for claim C2 at a concrete state and outcome. -/
theorem lookupNetwork_stale_run_is_silent_witness :
    lookupNetwork liveMainnetState
        (.success "1" (some { baseFeePerGas := some "0x1" })) true =
      { state := liveMainnetState, published := [],
        rpcCalls := [RpcCall.netVersion, RpcCall.ethGetBlockByNumber] } := by
  have := lookupNetwork_stale_run_is_silent liveMainnetState
    (.success "1" (some { baseFeePerGas := some "0x1" })) (by decide) (by decide)
  exact this

/-- Claim C1: for every completed, non-stale run of `lookupNetwork` (live
provider proxy, configured chainId, `networkChanged` still unset when the
RPCs resolve): if the configured provider type is a built-in Infura type,
the run publishes `InfuraIsUnblocked` exactly when the resulting status is
`Available`, publishes `InfuraIsBlocked` exactly when the resulting status
is `Blocked`, and publishes neither event otherwise; if the provider type
is not built-in, it publishes `InfuraIsUnblocked` regardless of the
resulting status. -/
theorem lookupNetwork_event_publication (st : NCState) (outcome : LookupOutcome)
    (h1 : st.providerProxyTarget ≠ none)
    (h2 : truthyStr st.providerStore.chainId = true) :
    (isInfuraProviderType st.providerStore.type = true →
      ((NCEvent.infuraIsUnblocked ∈ (lookupNetwork st outcome false).published ↔
          (lookupNetwork st outcome false).state.networkStatusStore
            = NetworkStatus.Available) ∧
       (NCEvent.infuraIsBlocked ∈ (lookupNetwork st outcome false).published ↔
          (lookupNetwork st outcome false).state.networkStatusStore
            = NetworkStatus.Blocked) ∧
       ((lookupNetwork st outcome false).state.networkStatusStore ≠ NetworkStatus.Available →
        (lookupNetwork st outcome false).state.networkStatusStore ≠ NetworkStatus.Blocked →
        (lookupNetwork st outcome false).published = []))) ∧
    (isInfuraProviderType st.providerStore.type = false →
      (lookupNetwork st outcome false).published = [NCEvent.infuraIsUnblocked]) := by
  obtain ⟨x, hx⟩ := Option.ne_none_iff_exists'.mp h1
  rcases hcls : classifyLookupOutcome outcome with ⟨s, nid, sup⟩
  cases hinf : isInfuraProviderType st.providerStore.type <;>
    cases s <;>
      simp [lookupNetwork, hx, h2, hcls, hinf]

/-- Witness for claim C1: a built-in provider whose probe is geo-blocked
publishes exactly `InfuraIsBlocked`. -/
theorem lookupNetwork_event_publication_witness :
    (NCEvent.infuraIsBlocked ∈
        (lookupNetwork liveMainnetState
          (.failure (.obj { code := some (.num (-32603)),
                            message := some "\x7b\"error\":\"countryBlocked\"\x7d" }))
          false).published ↔
      (lookupNetwork liveMainnetState
          (.failure (.obj { code := some (.num (-32603)),
                            message := some "\x7b\"error\":\"countryBlocked\"\x7d" }))
          false).state.networkStatusStore = NetworkStatus.Blocked) :=
  ((lookupNetwork_event_publication liveMainnetState
      (.failure (.obj { code := some (.num (-32603)),
                        message := some "\x7b\"error\":\"countryBlocked\"\x7d" }))
      (by decide) (by decide)).1 (by decide)).2.1

/-- Claim C3: a completed, non-stale `lookupNetwork` run with a live
provider and configured chainId always terminates (the embedding is a total
function) and stores exactly the status dictated by the outcome:
`Available` when both RPCs succeed and `net_version` returned a decimal
numeric string; otherwise an error reaches the catch block and the status
is `Blocked` when the error is classifiable (has `code` and `message`) and
its message JSON-parses to a plain object whose `error` field is the Infura
blocked sentinel, `Unknown` when it is classifiable, not blocked, and
carries the RPC-internal code, `Unavailable` for any other classifiable
error, and `Unknown` when the error cannot be classified at all. -/
theorem lookupNetwork_status_classification (st : NCState) (outcome : LookupOutcome)
    (h1 : st.providerProxyTarget ≠ none)
    (h2 : truthyStr st.providerStore.chainId = true) :
    (lookupRaisedError outcome = none →
      (lookupNetwork st outcome false).state.networkStatusStore
        = NetworkStatus.Available) ∧
    (∀ e, lookupRaisedError outcome = some e →
      (((isErrorWithCode e && isErrorWithMessage e) = true →
          ((isBlockedBody (jsonParse (errorMessage e)) = true →
              (lookupNetwork st outcome false).state.networkStatusStore
                = NetworkStatus.Blocked) ∧
           (isBlockedBody (jsonParse (errorMessage e)) = false →
              errorCode e = some (.num rpcInternalErrorCode) →
              (lookupNetwork st outcome false).state.networkStatusStore
                = NetworkStatus.Unknown) ∧
           (isBlockedBody (jsonParse (errorMessage e)) = false →
              errorCode e ≠ some (.num rpcInternalErrorCode) →
              (lookupNetwork st outcome false).state.networkStatusStore
                = NetworkStatus.Unavailable))) ∧
       ((isErrorWithCode e && isErrorWithMessage e) = false →
          (lookupNetwork st outcome false).state.networkStatusStore
            = NetworkStatus.Unknown))) := by
  obtain ⟨x, hx⟩ := Option.ne_none_iff_exists'.mp h1
  have hstatus : (lookupNetwork st outcome false).state.networkStatusStore
      = (classifyLookupOutcome outcome).1 := by
    rcases hcls : classifyLookupOutcome outcome with ⟨s, nid, sup⟩
    cases s <;> simp [lookupNetwork, hx, h2, hcls]
  have hcls_err : ∀ e, lookupRaisedError outcome = some e →
      (classifyLookupOutcome outcome).1 = classifyRpcError e := by
    intro e he
    cases outcome with
    | success nv blk =>
      by_cases hd : isDecimalNumericString nv = true
      · simp [lookupRaisedError, hd] at he
      · have hd' : isDecimalNumericString nv = false := by
          cases hnv : isDecimalNumericString nv
          · rfl
          · exact absurd hnv hd
        simp [lookupRaisedError, hd'] at he
        simp [classifyLookupOutcome, hd', ← he]
    | failure err =>
      simp [lookupRaisedError] at he
      simp [classifyLookupOutcome, ← he]
  constructor
  · intro hnone
    rw [hstatus]
    cases outcome with
    | success nv blk =>
      by_cases hd : isDecimalNumericString nv = true
      · simp [classifyLookupOutcome, hd]
      · have hd' : isDecimalNumericString nv = false := by
          cases hnv : isDecimalNumericString nv
          · rfl
          · exact absurd hnv hd
        simp [lookupRaisedError, hd'] at hnone
    | failure err => simp [lookupRaisedError] at hnone
  · intro e he
    rw [hstatus, hcls_err e he]
    refine ⟨fun hcm => ⟨fun hb => ?_, fun hb hcode => ?_, fun hb hcode => ?_⟩, fun hcm => ?_⟩
    · simp [classifyRpcError, hcm, hb]
    · simp [classifyRpcError, hcm, hb, hcode]
    · simp [classifyRpcError, hcm, hb, hcode]
    · simp [classifyRpcError, hcm]

/-- Witness for claim C3: the blocked-sentinel error is classified as
`Blocked` at a concrete state. -/
theorem lookupNetwork_status_classification_witness :
    (lookupNetwork liveMainnetState
        (.failure (.obj { code := some (.str "x"),
                          message := some "\x7b\"error\":\"countryBlocked\"\x7d" }))
        false).state.networkStatusStore = NetworkStatus.Blocked :=
  (((lookupNetwork_status_classification liveMainnetState
      (.failure (.obj { code := some (.str "x"),
                        message := some "\x7b\"error\":\"countryBlocked\"\x7d" }))
      (by decide) (by decide)).2
      (.obj { code := some (.str "x"),
              message := some "\x7b\"error\":\"countryBlocked\"\x7d" })
      (by decide)).1 (by decide)).1 (by decide)

theorem objGet_cons_of_pos (p : String × NetworkConfiguration)
    (l : NetworkConfigurations) (k : String) (h : (p.1 == k) = true) :
    objGet (p :: l) k = some p.2 := by
  unfold objGet
  rw [List.find?_cons_of_pos (p := fun q => q.1 == k) l h]

theorem objGet_cons_of_neg (p : String × NetworkConfiguration)
    (l : NetworkConfigurations) (k : String) (h : (p.1 == k) = false) :
    objGet (p :: l) k = objGet l k := by
  unfold objGet
  rw [List.find?_cons_of_neg (p := fun q => q.1 == k) l (by simp [h])]

theorem objInsert_of_mem (m : NetworkConfigurations) (k : String)
    (v : NetworkConfiguration) (h : ∃ p ∈ m, p.1 = k) :
    objInsert m k v = replaceKey m k v := by
  unfold objInsert replaceKey
  rcases h with ⟨p, hp, hpk⟩
  rw [if_pos (List.any_eq_true.mpr ⟨p, hp, by simp [hpk]⟩)]

theorem objInsert_of_not_mem (m : NetworkConfigurations) (k : String)
    (v : NetworkConfiguration) (h : ∀ p ∈ m, p.1 ≠ k) :
    objInsert m k v = m ++ [(k, v)] := by
  unfold objInsert
  rw [if_neg]
  intro hany
  rcases List.any_eq_true.mp hany with ⟨p, hp, hpk⟩
  exact h p hp (by simpa using hpk)

theorem objGet_replace_self (m : NetworkConfigurations) (k : String)
    (v : NetworkConfiguration) (h : ∃ p ∈ m, p.1 = k) :
    objGet (replaceKey m k v) k = some v := by
  unfold replaceKey
  induction m with
  | nil => simp at h
  | cons p rest ih =>
    rw [List.map_cons]
    by_cases hp : p.1 = k
    · rw [if_pos (by simp [hp]), objGet_cons_of_pos _ _ _ (by simp)]
    · have h' : ∃ q ∈ rest, q.1 = k := by
        rcases h with ⟨q, hq, hqk⟩
        rcases List.mem_cons.mp hq with rfl | hq'
        · exact absurd hqk hp
        · exact ⟨q, hq', hqk⟩
      rw [if_neg (by simp [hp]), objGet_cons_of_neg _ _ _ (by simp [hp])]
      exact ih h'

theorem objGet_append_self (m : NetworkConfigurations) (k : String)
    (v : NetworkConfiguration) (h : ∀ p ∈ m, p.1 ≠ k) :
    objGet (m ++ [(k, v)]) k = some v := by
  have hnone : m.find? (fun p => p.1 == k) = none := by
    rw [List.find?_eq_none]
    intro x hx
    simp [h x hx]
  unfold objGet
  rw [List.find?_append, hnone]
  simp

theorem objGet_objInsert_self (m : NetworkConfigurations) (k : String)
    (v : NetworkConfiguration) :
    objGet (objInsert m k v) k = some v := by
  by_cases h : ∃ p ∈ m, p.1 = k
  · rw [objInsert_of_mem m k v h]
    exact objGet_replace_self m k v h
  · push_neg at h
    rw [objInsert_of_not_mem m k v h]
    exact objGet_append_self m k v h

theorem replaceKey_keys (m : NetworkConfigurations) (k : String)
    (v : NetworkConfiguration) :
    (replaceKey m k v).map (fun p => p.1) = m.map (fun p => p.1) := by
  unfold replaceKey
  rw [List.map_map]
  refine List.map_congr_left ?_
  intro p _
  by_cases hp : p.1 = k
  · simp [hp]
  · simp [hp]

theorem replaceKey_length (m : NetworkConfigurations) (k : String)
    (v : NetworkConfiguration) :
    (replaceKey m k v).length = m.length := by
  unfold replaceKey
  exact List.length_map _ _

theorem unique_match_of_count_le_one {α : Type} (l : List α) (q : α → Bool)
    (hc : (l.filter q).length ≤ 1) (a : α) (ha : a ∈ l) (hqa : q a = true) :
    ∀ b ∈ l, q b = true → b = a := by
  intro b hb hqb
  have haf : a ∈ l.filter q := List.mem_filter.mpr ⟨ha, hqa⟩
  have hbf : b ∈ l.filter q := List.mem_filter.mpr ⟨hb, hqb⟩
  match hfl : l.filter q with
  | [] => rw [hfl] at haf; simp at haf
  | [c] =>
    rw [hfl] at haf hbf
    simp at haf hbf
    rw [haf, hbf]
  | c :: d :: rest =>
    rw [hfl] at hc
    simp at hc

theorem filter_replaceKey_of_unique (m : NetworkConfigurations) (k : String)
    (v : NetworkConfiguration) (q : String × NetworkConfiguration → Bool)
    (hnodup : (m.map (fun p => p.1)).Nodup)
    (hmem : ∃ nc, (k, nc) ∈ m)
    (huniq : ∀ p ∈ m, q p = true → p.1 = k)
    (hqv : q (k, v) = true) :
    (replaceKey m k v).filter q = [(k, v)] := by
  induction m with
  | nil => simp at hmem
  | cons p rest ih =>
    rw [List.map_cons] at hnodup
    have hnodup' := List.nodup_cons.mp hnodup
    unfold replaceKey
    rw [List.map_cons]
    by_cases hp : p.1 = k
    · rw [if_pos (by simp [hp])]
      rw [List.filter_cons_of_pos hqv]
      have hrest_nokey : ∀ x ∈ rest, x.1 ≠ k := by
        intro x hx hxk
        refine hnodup'.1 ?_
        rw [hp, ← hxk]
        exact List.mem_map_of_mem (fun p => p.1) hx
      have hrest_replace : rest.map (fun p => if p.1 == k then (k, v) else p) = rest := by
        have hid : rest.map (fun p => if p.1 == k then (k, v) else p) = rest.map id := by
          refine List.map_congr_left ?_
          intro x hx
          rw [if_neg (by simp [hrest_nokey x hx])]
          rfl
        rw [hid, List.map_id]
      rw [hrest_replace]
      have : rest.filter q = [] := by
        rw [List.filter_eq_nil_iff]
        intro x hx
        intro hqx
        exact hrest_nokey x hx (huniq x (List.mem_cons_of_mem p hx) hqx)
      rw [this]
    · rw [if_neg (by simp [hp])]
      have hqp : q p = false := by
        cases hqp : q p
        · rfl
        · exact absurd (huniq p (List.mem_cons_self p rest) hqp) hp
      rw [List.filter_cons_of_neg (by simp [hqp])]
      refine ih hnodup'.2 ?_ ?_
      · rcases hmem with ⟨nc, hnc⟩
        rcases List.mem_cons.mp hnc with heq | h'
        · exact absurd (congrArg Prod.fst heq).symm hp
        · exact ⟨nc, h'⟩
      · intro x hx hqx
        exact huniq x (List.mem_cons_of_mem p hx) hqx

theorem find?_replaceKey_of_unique (m : NetworkConfigurations) (k : String)
    (v : NetworkConfiguration) (q : String × NetworkConfiguration → Bool)
    (hnodup : (m.map (fun p => p.1)).Nodup)
    (hmem : ∃ nc, (k, nc) ∈ m)
    (huniq : ∀ p ∈ m, q p = true → p.1 = k)
    (hqv : q (k, v) = true) :
    (replaceKey m k v).find? q = some (k, v) := by
  induction m with
  | nil => simp at hmem
  | cons p rest ih =>
    rw [List.map_cons] at hnodup
    have hnodup' := List.nodup_cons.mp hnodup
    unfold replaceKey
    rw [List.map_cons]
    by_cases hp : p.1 = k
    · rw [if_pos (by simp [hp])]
      rw [List.find?_cons_of_pos _ hqv]
    · rw [if_neg (by simp [hp])]
      have hqp : q p = false := by
        cases hqp : q p
        · rfl
        · exact absurd (huniq p (List.mem_cons_self p rest) hqp) hp
      rw [List.find?_cons_of_neg _ (by simp [hqp])]
      refine ih hnodup'.2 ?_ ?_
      · rcases hmem with ⟨nc, hnc⟩
        rcases List.mem_cons.mp hnc with heq | h'
        · exact absurd (congrArg Prod.fst heq).symm hp
        · exact ⟨nc, h'⟩
      · intro x hx hqx
        exact huniq x (List.mem_cons_of_mem p hx) hqx

theorem findMatchingConfig_eq (m : NetworkConfigurations) (url : String) :
    findMatchingConfig m url = (m.find? (matchesUrl url)).map (fun p => p.2) := by
  unfold findMatchingConfig matchesUrl
  rw [List.find?_map]
  rfl

theorem jsGetEips_cons_of_pos (p : Nat × Option Bool) (l : List (Nat × Option Bool))
    (k : Nat) (h : (p.1 == k) = true) : jsGetEips (p :: l) k = p.2 := by
  unfold jsGetEips
  rw [List.find?_cons_of_pos (p := fun q => q.1 == k) l h]

theorem jsGetEips_cons_of_neg (p : Nat × Option Bool) (l : List (Nat × Option Bool))
    (k : Nat) (h : (p.1 == k) = false) : jsGetEips (p :: l) k = jsGetEips l k := by
  unfold jsGetEips
  rw [List.find?_cons_of_neg (p := fun q => q.1 == k) l (by simp [h])]

theorem jsGetEips_replace_self (m : List (Nat × Option Bool)) (k : Nat) (v : Option Bool)
    (h : ∃ p ∈ m, p.1 = k) :
    jsGetEips (m.map (fun p => if p.1 == k then (k, v) else p)) k = v := by
  induction m with
  | nil => simp at h
  | cons p rest ih =>
    rw [List.map_cons]
    by_cases hp : p.1 = k
    · rw [if_pos (by simp [hp]), jsGetEips_cons_of_pos _ _ _ (by simp)]
    · have h' : ∃ q ∈ rest, q.1 = k := by
        rcases h with ⟨q, hq, hqk⟩
        rcases List.mem_cons.mp hq with rfl | hq'
        · exact absurd hqk hp
        · exact ⟨q, hq', hqk⟩
      rw [if_neg (by simp [hp]), jsGetEips_cons_of_neg _ _ _ (by simp [hp])]
      exact ih h'

theorem jsGetEips_append_self (m : List (Nat × Option Bool)) (k : Nat) (v : Option Bool)
    (h : ∀ p ∈ m, p.1 ≠ k) :
    jsGetEips (m ++ [(k, v)]) k = v := by
  have hnone : m.find? (fun p => p.1 == k) = none := by
    rw [List.find?_eq_none]
    intro x hx
    simp [h x hx]
  unfold jsGetEips
  rw [List.find?_append, hnone]
  simp

theorem jsGetEips_objInsertNat_self (m : List (Nat × Option Bool)) (k : Nat) (v : Option Bool) :
    jsGetEips (objInsertNat m k v) k = v := by
  unfold objInsertNat
  by_cases h : m.any (fun p => p.1 == k) = true
  · rw [if_pos h]
    refine jsGetEips_replace_self m k v ?_
    rcases List.any_eq_true.mp h with ⟨x, hx, hxk⟩
    exact ⟨x, hx, by simpa using hxk⟩
  · rw [if_neg h]
    refine jsGetEips_append_self m k v ?_
    intro p hp hpk
    exact h (List.any_eq_true.mpr ⟨p, hp, by simp [hpk]⟩)

theorem jsGetEips_replace_other (m : List (Nat × Option Bool)) (k k' : Nat)
    (v : Option Bool) (h : k' ≠ k) :
    jsGetEips (m.map (fun p => if p.1 == k then (k, v) else p)) k'
      = jsGetEips m k' := by
  induction m with
  | nil => rfl
  | cons p rest ih =>
    rw [List.map_cons]
    by_cases hp : p.1 = k
    · rw [if_pos (by simp [hp]),
        jsGetEips_cons_of_neg (k, v) _ k' (by simp; exact fun hh => h hh.symm),
        jsGetEips_cons_of_neg p _ k' (by simp [hp]; exact fun hh => h hh.symm)]
      exact ih
    · rw [if_neg (by simp [hp])]
      by_cases hp' : p.1 = k'
      · rw [jsGetEips_cons_of_pos _ _ _ (by simp [hp']),
          jsGetEips_cons_of_pos _ _ _ (by simp [hp'])]
      · rw [jsGetEips_cons_of_neg _ _ _ (by simp [hp']),
          jsGetEips_cons_of_neg _ _ _ (by simp [hp'])]
        exact ih

theorem jsGetEips_append_other (m : List (Nat × Option Bool)) (k k' : Nat)
    (v : Option Bool) (h : k' ≠ k) :
    jsGetEips (m ++ [(k, v)]) k' = jsGetEips m k' := by
  unfold jsGetEips
  rw [List.find?_append]
  have hsingle : ([(k, v)].find? (fun p => p.1 == k')) = none := by
    simp
    exact fun hh => h hh.symm
  rw [hsingle]
  cases m.find? (fun p => p.1 == k') <;> rfl

theorem jsGetEips_objInsertNat_other (m : List (Nat × Option Bool)) (k k' : Nat)
    (v : Option Bool) (h : k' ≠ k) :
    jsGetEips (objInsertNat m k v) k' = jsGetEips m k' := by
  unfold objInsertNat
  split_ifs with hany
  · exact jsGetEips_replace_other m k k' v h
  · exact jsGetEips_append_other m k k' v h

/-- Claim C5: `getEIP1559Compatibility` returns the stored `EIPS[1559]`
value without issuing any RPC and without mutating state whenever that
value is defined; returns false without mutating any state when no provider
proxy exists; and otherwise fetches the latest block, writes `EIPS[1559]`
equal to whether the block has a `baseFeePerGas` property while preserving
every other entry of the `EIPS` map (and every other store), and returns
that boolean. -/
theorem getEIP1559Compatibility_spec (st : NCState)
    (fetchResult : Except JsError (Option Block)) :
    (∀ b, jsGetEips st.networkDetails.EIPS 1559 = some b →
      getEIP1559Compatibility st fetchResult
        = { state := st, value := .ok b, rpcCalls := [] }) ∧
    (jsGetEips st.networkDetails.EIPS 1559 = none →
      st.providerProxyTarget = none →
      getEIP1559Compatibility st fetchResult
        = { state := st, value := .ok false, rpcCalls := [] }) ∧
    (∀ blk, jsGetEips st.networkDetails.EIPS 1559 = none →
      st.providerProxyTarget ≠ none →
      fetchResult = .ok blk →
      (getEIP1559Compatibility st fetchResult).value
          = .ok (latestBlockSupportsEIP1559 blk) ∧
      jsGetEips (getEIP1559Compatibility st fetchResult).state.networkDetails.EIPS 1559
          = some (latestBlockSupportsEIP1559 blk) ∧
      (∀ k, k ≠ 1559 →
        jsGetEips (getEIP1559Compatibility st fetchResult).state.networkDetails.EIPS k
          = jsGetEips st.networkDetails.EIPS k) ∧
      (getEIP1559Compatibility st fetchResult).state
          = { st with
              networkDetails := (getEIP1559Compatibility st fetchResult).state.networkDetails } ∧
      (getEIP1559Compatibility st fetchResult).rpcCalls
          = [RpcCall.ethGetBlockByNumber]) := by
  refine ⟨?_, ?_, ?_⟩
  · intro b hb
    simp [getEIP1559Compatibility, hb]
  · intro h0 hnull
    simp [getEIP1559Compatibility, h0, hnull]
  · intro blk h0 hne hfr
    subst hfr
    have hred : getEIP1559Compatibility st (.ok blk) =
        { state :=
            { st with
              networkDetails :=
                { EIPS := objInsertNat st.networkDetails.EIPS 1559
                    (some (latestBlockSupportsEIP1559 blk)) } },
          value := .ok (latestBlockSupportsEIP1559 blk),
          rpcCalls := [RpcCall.ethGetBlockByNumber] } := by
      obtain ⟨x, hx⟩ := Option.ne_none_iff_exists'.mp hne
      simp [getEIP1559Compatibility, h0, hx]
    rw [hred]
    refine ⟨rfl, ?_, ?_, rfl, rfl⟩
    · exact jsGetEips_objInsertNat_self _ _ _
    · intro k hk
      exact jsGetEips_objInsertNat_other _ _ _ _ hk

/-- Witness for claim C5: at a concrete state with an undefined
`EIPS[1559]` slot and a live provider, a fetched EIP-1559 block writes and
returns `true`. -/
theorem getEIP1559Compatibility_spec_witness :
    (getEIP1559Compatibility liveMainnetState
        (.ok (some { baseFeePerGas := some "0x1" }))).value = .ok true ∧
    jsGetEips (getEIP1559Compatibility liveMainnetState
        (.ok (some { baseFeePerGas := some "0x1" }))).state.networkDetails.EIPS 1559
      = some true := by
  have h := (getEIP1559Compatibility_spec liveMainnetState
      (.ok (some { baseFeePerGas := some "0x1" }))).2.2
      (some { baseFeePerGas := some "0x1" }) (by decide) (by decide) rfl
  exact ⟨h.1, h.2.1⟩

/-- Claim C9: whenever `upsertNetworkConfiguration`, `setProviderType`, or
`setActiveNetwork` fails on input validation (invalid or unsafely large
chainId, missing or invalid rpcUrl, missing ticker, missing referrer or
source, the type `"rpc"` passed to `setProviderType`, an unknown built-in
shortname, or an unknown network-configuration id), it throws synchronously
and every store of the controller is left unchanged: no
provider-configuration, previous-provider, registry, or derived-state write
occurs, and no event is published. -/
theorem validation_failure_leaves_state_unchanged (st : NCState) (args : UpsertArgs)
    (opts : UpsertOpts) (freshId : String) (type ncid : String) :
    (¬ upsertValidationOk args opts →
      (upsertNetworkConfiguration st args opts freshId).state = st ∧
      (upsertNetworkConfiguration st args opts freshId).thrown ≠ none ∧
      (upsertNetworkConfiguration st args opts freshId).tracked = [] ∧
      (upsertNetworkConfiguration st args opts freshId).published = []) ∧
    ((type = NETWORK_TYPES_RPC ∨ isInfuraProviderType type = false) →
      (setProviderType st type).state = st ∧
      (setProviderType st type).thrown ≠ none ∧
      (setProviderType st type).published = []) ∧
    (objGet st.networkConfigurationsStore ncid = none →
      (setActiveNetwork st ncid).state = st ∧
      (setActiveNetwork st ncid).thrown ≠ none ∧
      (setActiveNetwork st ncid).published = []) := by
  refine ⟨?_, ?_, ?_⟩
  · intro hv
    by_cases h1 : isPrefixedFormattedHexString args.chainId = true
    case neg =>
      have h1' : isPrefixedFormattedHexString args.chainId = false :=
        Bool.not_eq_true _ ▸ (Bool.eq_false_iff.mpr h1)
      simp [upsertNetworkConfiguration, h1']
    by_cases h2 : isSafeChainId (parseIntHex args.chainId) = true
    case neg =>
      have h2' : isSafeChainId (parseIntHex args.chainId) = false :=
        Bool.eq_false_iff.mpr h2
      simp [upsertNetworkConfiguration, h1, h2']
    by_cases h3 : args.rpcUrl = ""
    case pos => simp [upsertNetworkConfiguration, h1, h2, h3]
    by_cases h4 : opts.referrer = "" ∨ opts.source = ""
    case pos => simp [upsertNetworkConfiguration, h1, h2, h3, h4]
    by_cases h5 : isValidUrl args.rpcUrl = true
    case neg =>
      have h5' : isValidUrl args.rpcUrl = false := Bool.eq_false_iff.mpr h5
      simp [upsertNetworkConfiguration, h1, h2, h3, h4, h5']
    by_cases h6 : args.ticker = ""
    case pos => simp [upsertNetworkConfiguration, h1, h2, h3, h4, h5, h6]
    push_neg at h4
    exact absurd ⟨h1, h2, h3, h4.1, h4.2, h5, h6⟩ hv
  · intro hty
    by_cases hr : type = NETWORK_TYPES_RPC
    · simp [setProviderType, hr]
    · have hinf : isInfuraProviderType type = false := hty.resolve_left hr
      have htab : BUILT_IN_INFURA_NETWORKS type = none :=
        (builtin_table_none_iff type).mpr hinf
      simp [setProviderType, hr, htab]
  · intro h
    simp [setActiveNetwork, h]

/-- Witness for claim C9: concrete validation failures (a non-hex chainId,
the forbidden type `"rpc"`, an id absent from the registry) all throw and
leave the concrete state untouched. -/
theorem validation_failure_leaves_state_unchanged_witness :
    ((upsertNetworkConfiguration liveMainnetState
        { rpcUrl := "https://x/", chainId := "nothex", ticker := "T" }
        { referrer := "metamask", source := "ui" } "id-9").state = liveMainnetState ∧
      (upsertNetworkConfiguration liveMainnetState
        { rpcUrl := "https://x/", chainId := "nothex", ticker := "T" }
        { referrer := "metamask", source := "ui" } "id-9").thrown ≠ none ∧
      (upsertNetworkConfiguration liveMainnetState
        { rpcUrl := "https://x/", chainId := "nothex", ticker := "T" }
        { referrer := "metamask", source := "ui" } "id-9").tracked = [] ∧
      (upsertNetworkConfiguration liveMainnetState
        { rpcUrl := "https://x/", chainId := "nothex", ticker := "T" }
        { referrer := "metamask", source := "ui" } "id-9").published = []) ∧
    ((setProviderType liveMainnetState "rpc").state = liveMainnetState ∧
      (setProviderType liveMainnetState "rpc").thrown ≠ none ∧
      (setProviderType liveMainnetState "rpc").published = []) ∧
    ((setActiveNetwork liveMainnetState "missing-id").state = liveMainnetState ∧
      (setActiveNetwork liveMainnetState "missing-id").thrown ≠ none ∧
      (setActiveNetwork liveMainnetState "missing-id").published = []) := by
  have h := validation_failure_leaves_state_unchanged liveMainnetState
    { rpcUrl := "https://x/", chainId := "nothex", ticker := "T" }
    { referrer := "metamask", source := "ui" } "id-9" "rpc" "missing-id"
  exact ⟨h.1 (by decide), h.2.1 (by decide), h.2.2 (by decide)⟩

theorem setActiveNetwork_no_throw (st : NCState) (ncid : String)
    (entry : NetworkConfiguration)
    (h : objGet st.networkConfigurationsStore ncid = some entry)
    (hurl : entry.rpcUrl ≠ "") :
    (setActiveNetwork st ncid).thrown = none := by
  have hrpc : isInfuraProviderType NETWORK_TYPES_RPC = false := by decide
  simp [setActiveNetwork, h, setProviderConfig, switchNetwork, configureProvider,
    hrpc, truthyStr, hurl]

theorem upsert_success_facts (st : NCState) (args : UpsertArgs) (opts : UpsertOpts)
    (freshId : String) (hv : upsertValidationOk args opts) :
    (upsertNetworkConfiguration st args opts freshId).returnedId
      = some (((findMatchingConfig st.networkConfigurationsStore args.rpcUrl).map
          (fun nc => nc.id)).getD freshId) ∧
    (upsertNetworkConfiguration st args opts freshId).state.networkConfigurationsStore
      = objInsert st.networkConfigurationsStore
          (((findMatchingConfig st.networkConfigurationsStore args.rpcUrl).map
              (fun nc => nc.id)).getD freshId)
          { id := ((findMatchingConfig st.networkConfigurationsStore args.rpcUrl).map
                (fun nc => nc.id)).getD freshId,
            rpcUrl := args.rpcUrl,
            chainId := args.chainId,
            ticker := args.ticker,
            nickname := args.nickname,
            rpcPrefs := args.rpcPrefs } ∧
    (upsertNetworkConfiguration st args opts freshId).tracked
      = (if findMatchingConfig st.networkConfigurationsStore args.rpcUrl = none
         then [customNetworkAddedPayload args opts] else []) ∧
    (upsertNetworkConfiguration st args opts freshId).thrown = none := by
  obtain ⟨h1, h2, h3, h4, h5, h6, h7⟩ := hv
  have h45 : ¬ (opts.referrer = "" ∨ opts.source = "") := by
    push_neg
    exact ⟨h4, h5⟩
  have htracked :
      (if (findMatchingConfig st.networkConfigurationsStore args.rpcUrl).map
            (fun nc => nc.id) = none
       then [customNetworkAddedPayload args opts] else [])
      = (if findMatchingConfig st.networkConfigurationsStore args.rpcUrl = none
         then [customNetworkAddedPayload args opts] else []) := by
    by_cases hf : findMatchingConfig st.networkConfigurationsStore args.rpcUrl = none
    · simp [hf]
    · simp [hf, Option.map_eq_none']
  by_cases hsa : opts.setActive
  case neg =>
    have hsa' : opts.setActive = false := Bool.eq_false_iff.mpr hsa
    simp only [upsertNetworkConfiguration, h1, h2, h6, Bool.not_true,
      Bool.false_eq_true, if_false, if_neg h3, if_neg h45, if_neg h7, hsa']
    refine ⟨trivial, trivial, ?_, trivial⟩
    rw [← htracked]
    rfl
  case pos =>
    simp only [upsertNetworkConfiguration, h1, h2, h6, Bool.not_true,
      Bool.false_eq_true, if_false, if_neg h3, if_neg h45, if_neg h7, hsa, if_true]
    set newId := ((findMatchingConfig st.networkConfigurationsStore args.rpcUrl).map
        (fun nc => nc.id)).getD freshId with hnewId
    set entry : NetworkConfiguration :=
      { id := newId, rpcUrl := args.rpcUrl, chainId := args.chainId,
        ticker := args.ticker, nickname := args.nickname,
        rpcPrefs := args.rpcPrefs } with hentry
    set st1 : NCState :=
      { st with
        networkConfigurationsStore :=
          objInsert st.networkConfigurationsStore newId entry } with hst1
    have hobj : objGet st1.networkConfigurationsStore newId = some entry :=
      objGet_objInsert_self _ _ _
    have hthrown : (setActiveNetwork st1 newId).thrown = none :=
      setActiveNetwork_no_throw st1 newId entry hobj h3
    have hreg : (setActiveNetwork st1 newId).state.networkConfigurationsStore
        = st1.networkConfigurationsStore :=
      setActiveNetwork_preserves_registry st1 newId
    refine ⟨?_, ?_, ?_, ?_⟩
    · simp [hthrown]
    · exact hreg
    · rw [← htracked]
      rfl
    · exact hthrown

/-- Claim C7: a successful call of `upsertNetworkConfiguration` invokes the
`trackEvent` callback iff no existing configuration's `rpcUrl` matched the
given `rpcUrl` case-insensitively, and in that case invokes it exactly once
with payload event "Custom Network Added", category Network, referrer url
the given referrer, and properties chain_id / symbol / source from the
call's arguments. -/
theorem upsertNetworkConfiguration_trackEvent_iff_new (st : NCState)
    (args : UpsertArgs) (opts : UpsertOpts) (freshId : String)
    (hv : upsertValidationOk args opts) :
    (upsertNetworkConfiguration st args opts freshId).thrown = none ∧
    (findMatchingConfig st.networkConfigurationsStore args.rpcUrl = none →
      (upsertNetworkConfiguration st args opts freshId).tracked
        = [customNetworkAddedPayload args opts]) ∧
    (findMatchingConfig st.networkConfigurationsStore args.rpcUrl ≠ none →
      (upsertNetworkConfiguration st args opts freshId).tracked = []) := by
  obtain ⟨-, -, htracked, hthrown⟩ := upsert_success_facts st args opts freshId hv
  refine ⟨hthrown, ?_, ?_⟩
  · intro hnone
    rw [htracked, if_pos hnone]
  · intro hsome
    rw [htracked, if_neg hsome]

/-- Witness for claim C7: on an empty registry the callback fires once with
the documented payload. -/
theorem upsertNetworkConfiguration_trackEvent_iff_new_witness :
    (upsertNetworkConfiguration liveMainnetState
        { rpcUrl := "https://foo/", chainId := "0x5", ticker := "T" }
        { referrer := "metamask", source := "ui" } "id-1").thrown = none ∧
    (upsertNetworkConfiguration liveMainnetState
        { rpcUrl := "https://foo/", chainId := "0x5", ticker := "T" }
        { referrer := "metamask", source := "ui" } "id-1").tracked
      = [{ event := "Custom Network Added", category := "Network",
           referrerUrl := "metamask", chain_id := "0x5", symbol := "T",
           source := "ui" }] := by
  have h := upsertNetworkConfiguration_trackEvent_iff_new liveMainnetState
    { rpcUrl := "https://foo/", chainId := "0x5", ticker := "T" }
    { referrer := "metamask", source := "ui" } "id-1" (by decide)
  exact ⟨h.1, h.2.1 (by decide)⟩

/-- Claim C6: `upsertNetworkConfiguration` is idempotent on `rpcUrl` up to
letter case: on a well-formed registry (unique keys, each entry keyed by
its own id, at most one case-insensitive match for the URL, and a fresh
first uuid), two otherwise-valid calls whose `rpcUrl`s are equal
case-insensitively leave exactly one matching registry entry (the second
call does not grow the registry), and both calls return the same
configuration id, which is the id of the pre-existing matching entry when
one existed. -/
theorem upsertNetworkConfiguration_idempotent_on_rpcUrl
    (st : NCState) (args1 args2 : UpsertArgs) (opts1 opts2 : UpsertOpts)
    (id1 id2 : String)
    (hv1 : upsertValidationOk args1 opts1) (hv2 : upsertValidationOk args2 opts2)
    (hurl : jsToLowerCase args2.rpcUrl = jsToLowerCase args1.rpcUrl)
    (hwf : registryWellFormed st.networkConfigurationsStore)
    (hcount : countMatches st.networkConfigurationsStore args1.rpcUrl ≤ 1)
    (hfresh : ∀ p ∈ st.networkConfigurationsStore, p.1 ≠ id1) :
    (upsertNetworkConfiguration (upsertNetworkConfiguration st args1 opts1 id1).state
        args2 opts2 id2).returnedId
      = (upsertNetworkConfiguration st args1 opts1 id1).returnedId ∧
    countMatches
        (upsertNetworkConfiguration (upsertNetworkConfiguration st args1 opts1 id1).state
          args2 opts2 id2).state.networkConfigurationsStore args1.rpcUrl = 1 ∧
    (upsertNetworkConfiguration (upsertNetworkConfiguration st args1 opts1 id1).state
        args2 opts2 id2).state.networkConfigurationsStore.length
      = (upsertNetworkConfiguration st args1 opts1 id1).state.networkConfigurationsStore.length ∧
    (∀ nc0, findMatchingConfig st.networkConfigurationsStore args1.rpcUrl = some nc0 →
      (upsertNetworkConfiguration st args1 opts1 id1).returnedId = some nc0.id) := by
  obtain ⟨hret1, hreg1, -, -⟩ := upsert_success_facts st args1 opts1 id1 hv1
  obtain ⟨hret2, hreg2, -, -⟩ :=
    upsert_success_facts (upsertNetworkConfiguration st args1 opts1 id1).state
      args2 opts2 id2 hv2
  have hq2 : matchesUrl args2.rpcUrl = matchesUrl args1.rpcUrl := by
    funext p
    unfold matchesUrl
    rw [hurl]
  cases hfind : findMatchingConfig st.networkConfigurationsStore args1.rpcUrl with
  | none =>
    have hnomatch : ∀ p ∈ st.networkConfigurationsStore,
        matchesUrl args1.rpcUrl p = false := by
      have h := hfind
      rw [findMatchingConfig_eq] at h
      have h' : st.networkConfigurationsStore.find? (matchesUrl args1.rpcUrl) = none :=
        Option.map_eq_none'.mp h
      intro p hp
      exact Bool.eq_false_iff.mpr (List.find?_eq_none.mp h' p hp)
    rw [hfind] at hret1 hreg1
    simp only [Option.map_none', Option.getD_none] at hret1 hreg1
    set e1 : NetworkConfiguration :=
      { id := id1, rpcUrl := args1.rpcUrl, chainId := args1.chainId,
        ticker := args1.ticker, nickname := args1.nickname,
        rpcPrefs := args1.rpcPrefs } with he1
    rw [objInsert_of_not_mem _ _ _ hfresh] at hreg1
    set R1 := st.networkConfigurationsStore ++ [(id1, e1)] with hR1
    have hmem1 : (id1, e1) ∈ R1 := by
      rw [hR1]
      exact List.mem_append_right _ (List.mem_singleton.mpr rfl)
    have hqe1 : matchesUrl args1.rpcUrl (id1, e1) = true := by
      simp [matchesUrl, he1]
    have hfind2 : findMatchingConfig R1 args2.rpcUrl = some e1 := by
      rw [findMatchingConfig_eq, hq2, hR1, List.find?_append,
        List.find?_eq_none.mpr (fun x hx => by simp [hnomatch x hx]),
        List.find?_cons_of_pos _ hqe1]
      rfl
    rw [hreg1] at hret2 hreg2
    rw [hfind2] at hret2 hreg2
    simp only [Option.map_some', Option.getD_some] at hret2 hreg2
    set e2 : NetworkConfiguration :=
      { id := id1, rpcUrl := args2.rpcUrl, chainId := args2.chainId,
        ticker := args2.ticker, nickname := args2.nickname,
        rpcPrefs := args2.rpcPrefs } with he2
    rw [objInsert_of_mem R1 id1 e2 ⟨(id1, e1), hmem1, rfl⟩] at hreg2
    have hkeys1 : (R1.map (fun p => p.1)).Nodup := by
      rw [hR1, List.map_append, List.nodup_append]
      refine ⟨hwf.2, List.nodup_singleton _, ?_⟩
      intro a ha hb
      rcases List.mem_map.mp ha with ⟨p, hp, rfl⟩
      simp only [List.map_cons, List.map_nil, List.mem_singleton] at hb
      exact hfresh p hp hb
    have huniq1 : ∀ p ∈ R1, matchesUrl args1.rpcUrl p = true → p.1 = id1 := by
      intro p hp hq
      rw [hR1] at hp
      rcases List.mem_append.mp hp with hp' | hp'
      · exact absurd hq (by simp [hnomatch p hp'])
      · rw [List.mem_singleton.mp hp']
    have hqe2 : matchesUrl args1.rpcUrl (id1, e2) = true := by
      simp [matchesUrl, he2, hurl]
    have hfilter : (replaceKey R1 id1 e2).filter (matchesUrl args1.rpcUrl)
        = [(id1, e2)] :=
      filter_replaceKey_of_unique R1 id1 e2 _ hkeys1 ⟨e1, hmem1⟩ huniq1 hqe2
    refine ⟨?_, ?_, ?_, ?_⟩
    · rw [hret1, hret2]
    · unfold countMatches
      rw [hreg2, hfilter]
      rfl
    · rw [hreg2, hreg1]
      exact replaceKey_length R1 id1 e2
    · intro nc0 hh
      exact Option.noConfusion hh
  | some nc0 =>
    have hfind0 := hfind
    rw [findMatchingConfig_eq] at hfind0
    obtain ⟨p0, hp0find, hp0snd⟩ := Option.map_eq_some'.mp hfind0
    have hp0mem : p0 ∈ st.networkConfigurationsStore :=
      List.mem_of_find?_eq_some hp0find
    have hp0q : matchesUrl args1.rpcUrl p0 = true := List.find?_some hp0find
    have hp0key : p0.1 = nc0.id := by
      rw [← hp0snd]
      exact (hwf.1 p0 hp0mem).symm
    have hp0eq : p0 = (nc0.id, nc0) := Prod.ext hp0key hp0snd
    have huniq0 : ∀ b ∈ st.networkConfigurationsStore,
        matchesUrl args1.rpcUrl b = true → b = p0 :=
      unique_match_of_count_le_one _ _ hcount p0 hp0mem hp0q
    have huniqm : ∀ b ∈ st.networkConfigurationsStore,
        matchesUrl args1.rpcUrl b = true → b.1 = nc0.id := by
      intro b hb hqb
      rw [huniq0 b hb hqb, hp0key]
    rw [hfind] at hret1 hreg1
    simp only [Option.map_some', Option.getD_some] at hret1 hreg1
    set e1 : NetworkConfiguration :=
      { id := nc0.id, rpcUrl := args1.rpcUrl, chainId := args1.chainId,
        ticker := args1.ticker, nickname := args1.nickname,
        rpcPrefs := args1.rpcPrefs } with he1
    rw [objInsert_of_mem _ _ _ ⟨p0, hp0mem, hp0key⟩] at hreg1
    set R1 := replaceKey st.networkConfigurationsStore nc0.id e1 with hR1
    have hqe1 : matchesUrl args1.rpcUrl (nc0.id, e1) = true := by
      simp [matchesUrl, he1]
    have hmem1 : (nc0.id, e1) ∈ R1 := by
      rw [hR1]
      unfold replaceKey
      refine List.mem_map.mpr ⟨p0, hp0mem, ?_⟩
      rw [if_pos (by simp [hp0key])]
    have hkeys1 : (R1.map (fun p => p.1)).Nodup := by
      rw [hR1, replaceKey_keys]
      exact hwf.2
    have huniq1 : ∀ p ∈ R1, matchesUrl args1.rpcUrl p = true → p.1 = nc0.id := by
      intro p hp hq
      rw [hR1] at hp
      unfold replaceKey at hp
      rcases List.mem_map.mp hp with ⟨p', hp', rfl⟩
      by_cases hk : p'.1 = nc0.id
      · rw [if_pos (by simp [hk])]
      · rw [if_neg (by simp [hk])] at hq ⊢
        exact huniqm p' hp' hq
    have hfindq : R1.find? (matchesUrl args1.rpcUrl) = some (nc0.id, e1) := by
      rw [hR1]
      exact find?_replaceKey_of_unique _ _ _ _ hwf.2
        ⟨nc0, hp0eq ▸ hp0mem⟩ huniqm hqe1
    have hfind2 : findMatchingConfig R1 args2.rpcUrl = some e1 := by
      rw [findMatchingConfig_eq, hq2, hfindq]
      rfl
    rw [hreg1] at hret2 hreg2
    rw [hfind2] at hret2 hreg2
    simp only [Option.map_some', Option.getD_some] at hret2 hreg2
    set e2 : NetworkConfiguration :=
      { id := nc0.id, rpcUrl := args2.rpcUrl, chainId := args2.chainId,
        ticker := args2.ticker, nickname := args2.nickname,
        rpcPrefs := args2.rpcPrefs } with he2
    rw [objInsert_of_mem R1 nc0.id e2 ⟨(nc0.id, e1), hmem1, rfl⟩] at hreg2
    have hqe2 : matchesUrl args1.rpcUrl (nc0.id, e2) = true := by
      simp [matchesUrl, he2, hurl]
    have hfilter : (replaceKey R1 nc0.id e2).filter (matchesUrl args1.rpcUrl)
        = [(nc0.id, e2)] :=
      filter_replaceKey_of_unique R1 nc0.id e2 _ hkeys1 ⟨e1, hmem1⟩ huniq1 hqe2
    refine ⟨?_, ?_, ?_, ?_⟩
    · rw [hret1, hret2]
    · unfold countMatches
      rw [hreg2, hfilter]
      rfl
    · rw [hreg2, hreg1]
      exact replaceKey_length R1 nc0.id e2
    · intro nc0' hh
      have heq : nc0 = nc0' := Option.some.inj hh
      rw [hret1, heq]

/-- Witness for claim C6: two calls with case-variant URLs on an empty
registry leave one matching entry and return the same id. -/
theorem upsertNetworkConfiguration_idempotent_on_rpcUrl_witness :
    (upsertNetworkConfiguration
        (upsertNetworkConfiguration liveMainnetState
          { rpcUrl := "https://Foo/", chainId := "0x5", ticker := "T" }
          { referrer := "metamask", source := "ui" } "id-1").state
        { rpcUrl := "https://foo/", chainId := "0x5", ticker := "T2" }
        { referrer := "metamask", source := "ui" } "id-2").returnedId
      = (upsertNetworkConfiguration liveMainnetState
          { rpcUrl := "https://Foo/", chainId := "0x5", ticker := "T" }
          { referrer := "metamask", source := "ui" } "id-1").returnedId ∧
    countMatches
        (upsertNetworkConfiguration
          (upsertNetworkConfiguration liveMainnetState
            { rpcUrl := "https://Foo/", chainId := "0x5", ticker := "T" }
            { referrer := "metamask", source := "ui" } "id-1").state
          { rpcUrl := "https://foo/", chainId := "0x5", ticker := "T2" }
          { referrer := "metamask", source := "ui" } "id-2").state.networkConfigurationsStore
        "https://Foo/" = 1 ∧
    (upsertNetworkConfiguration
        (upsertNetworkConfiguration liveMainnetState
          { rpcUrl := "https://Foo/", chainId := "0x5", ticker := "T" }
          { referrer := "metamask", source := "ui" } "id-1").state
        { rpcUrl := "https://foo/", chainId := "0x5", ticker := "T2" }
        { referrer := "metamask", source := "ui" } "id-2").state.networkConfigurationsStore.length
      = (upsertNetworkConfiguration liveMainnetState
          { rpcUrl := "https://Foo/", chainId := "0x5", ticker := "T" }
          { referrer := "metamask", source := "ui" } "id-1").state.networkConfigurationsStore.length := by
  have h := upsertNetworkConfiguration_idempotent_on_rpcUrl liveMainnetState
    { rpcUrl := "https://Foo/", chainId := "0x5", ticker := "T" }
    { rpcUrl := "https://foo/", chainId := "0x5", ticker := "T2" }
    { referrer := "metamask", source := "ui" }
    { referrer := "metamask", source := "ui" } "id-1" "id-2"
    (by decide) (by decide) (by decide) (by decide) (by decide) (by decide)
  exact ⟨h.1, h.2.1, h.2.2.1⟩

/-- Witness for claim C10: switching to type `"rpc"` with an empty `rpcUrl`
publishes only `NetworkWillChange`, resets the derived stores, and throws,
leaving the installed provider in place. -/
theorem switchNetwork_throws_nonatomically_witness :
    switchNetwork liveMainnetState
        { type := "rpc", chainId := some "0x5", rpcUrl := some "" } =
      { state :=
          { liveMainnetState with
            networkIdStore := buildDefaultNetworkIdState,
            networkStatusStore := buildDefaultNetworkStatusState,
            networkDetails := buildDefaultNetworkDetailsState },
        published := [NCEvent.networkWillChange],
        thrown := some "NetworkController - _configureProvider - unknown type" } :=
  switchNetwork_throws_nonatomically liveMainnetState
    { type := "rpc", chainId := some "0x5", rpcUrl := some "" } (by decide)
